import Mathlib

/-!
Verification of the cash-register reconciliation and attendance logic of the
DimensionXSalesApp backend.

The repository contains two generations of the cash routes and of the
attendance routes:

* `src/api/cash.js` (namespace `CashJs`): `POST /api/cash/open` rejects a
  second open without updating; `POST /api/cash/close` sums cash sales for
  the single store.
* `src/unnamed/part_003` (namespace `Part003`): `POST /api/cash/open`
  updates the existing row and appends notes before signalling the
  conflict; `POST /api/cash/close` sums cash sales over the fixed store
  set {1,2,3,4}; it also holds `calculateMonthlyStats`.
* `src/api/attendance.js` (namespace `AttendanceJs`): caller-supplied
  `login_time` / `logout_time` strings.
* `src/unnamed/part_001` (namespace `Part001`): server-clock timestamps.

Monetary amounts and coordinates are modelled as exact rationals (`ℚ`) —
an idealisation of the JavaScript runtime, which holds every number as an
IEEE-754 binary64 value; `roundDouble` below models that binary64 value
semantics exactly, and is used where the distinction matters (the
reconciliation arithmetic).  Dates and datetimes are the strings the
HTTP/SQL layer exchanges.
-/

/-- MySQL `CONCAT_WS(sep, a, b)` for two arguments: `NULL` arguments are
skipped, and the result is never `NULL` (empty when both are `NULL`). -/
def concat_ws (sep : String) (a b : Option String) : String :=
  match a, b with
  | some x, some y => x ++ sep ++ y
  | some x, none => x
  | none, some y => y
  | none, none => ""

/-- Split a list of characters at every occurrence of `sep`; the result is
always nonempty.  Models the JavaScript `String.prototype.split` used as
`s.split(sep)` for a single-character separator. -/
def splitChar (sep : Char) : List Char → List (List Char)
  | [] => [[]]
  | c :: cs =>
    match splitChar sep cs with
    | [] => [[]]
    | g :: gs => if c = sep then [] :: g :: gs else (c :: g) :: gs

/-- `login_time.split('T')[0]`: the date part of an ISO datetime string. -/
def datePart (s : String) : String :=
  match splitChar 'T' s.data with
  | [] => ""
  | g :: _ => String.mk g

/-- Decimal digit value of a character, if it is a digit. -/
def charDigit (c : Char) : Option Nat :=
  if c.isDigit then some (c.toNat - 48) else none

/-- Parse a nonempty all-digit character list as a natural number. -/
def parseNat : List Char → Option Nat
  | [] => none
  | cs => cs.foldl (fun acc c => acc.bind (fun n => (charDigit c).map (fun d => n * 10 + d)))
      (some 0)

/-- JavaScript `ToNumber` applied to a string, restricted to the shapes this
code base can meet: a string of decimal digits denotes that number and any
other string (in particular every ISO datetime string, which contains the
characters `-`, `:` and `T`) coerces to `NaN`, modelled as `none`. -/
def jsStringToNumber (s : String) : Option ℚ :=
  (parseNat s.data).map (fun n => (n : ℚ))

/-- JavaScript `Math.round`: round half toward positive infinity. -/
def jsRound (q : ℚ) : Int :=
  ⌊q + 1 / 2⌋

/-- Number of binary digits of a natural number (structural recursion on a
fuel argument, with the number itself as fuel). -/
def bitlenAux : Nat → Nat → Nat
  | 0, _ => 0
  | fuel + 1, n => if n = 0 then 0 else bitlenAux fuel (n / 2) + 1

/-- Number of binary digits of a natural number. -/
def bitlen (n : Nat) : Nat := bitlenAux n n

/-- `2 ^ k` as a rational, for an integer exponent. -/
def twoZpow (k : ℤ) : ℚ :=
  if 0 ≤ k then ((2 ^ k.toNat : ℕ) : ℚ) else 1 / ((2 ^ (-k).toNat : ℕ) : ℚ)

/-- Round the positive rational `n / d` to 53 significant bits, to nearest
with ties to even: the rounded significand together with the exponent of
its unit in the last place. -/
def roundPos (n d : ℕ) : ℕ × ℤ :=
  let k : ℤ := (bitlen n : ℤ) - (bitlen d : ℤ)
  let e : ℤ := if d * 2 ^ k.toNat ≤ n * 2 ^ (-k).toNat then k else k - 1
  let num2 : ℕ := n * 2 ^ (52 - e).toNat
  let den2 : ℕ := d * 2 ^ (e - 52).toNat
  let m0 : ℕ := num2 / den2
  let r : ℕ := num2 % den2
  let m : ℕ :=
    if 2 * r < den2 then m0
    else if den2 < 2 * r then m0 + 1
    else if m0 % 2 = 0 then m0 else m0 + 1
  (m, e - 52)

/-- The IEEE-754 binary64 value nearest to a rational (53-bit significand,
round to nearest, ties to even; the exponent range is unbounded, which is
accurate for the magnitudes arising here).  This is the value semantics of
every JavaScript number: `parseFloat` of a decimal numeral yields
`roundDouble` of its exact decimal value, and each arithmetic operation
rounds its exact result the same way. -/
def roundDouble (q : ℚ) : ℚ :=
  if q = 0 then 0
  else
    let p := roundPos q.num.natAbs q.den
    (q.num.sign : ℚ) * (p.1 : ℚ) * twoZpow p.2

/-- The arithmetic of the close handlers (src/api/cash.js lines 98-101 and
src/unnamed/part_003 lines 104-107) as the JavaScript runtime executes it:
the operands are binary64 values and each `+` and `-` rounds its exact
result to the nearest binary64. -/
def closeDoubleArithmetic (opening total_cash_sales closing : ℚ) : ℚ × ℚ :=
  let calculated_cash := roundDouble (opening + total_cash_sales)
  let cash_difference := roundDouble (closing - calculated_cash)
  (calculated_cash, cash_difference)

/-- Days since 1970-01-01 of a civil date (the standard days-from-civil
algorithm). -/
def daysFromCivil (y m d : Int) : Int :=
  let y2 : Int := if m ≤ 2 then y - 1 else y
  let era : Int := Int.fdiv y2 400
  let yoe : Int := y2 - era * 400
  let doy : Int := Int.fdiv (153 * (m + (if 2 < m then -3 else 9)) + 2) 5 + d - 1
  let doe : Int := yoe * 365 + Int.fdiv yoe 4 - Int.fdiv yoe 100 + doy
  era * 146097 + doe - 719468

/-- Milliseconds denoted by an ISO `YYYY-MM-DDTHH:MM[:SS]` datetime string,
as produced by `new Date(s).getTime()` (all datetimes of one request share
the same UTC offset, so differences are offset-independent); `none` models
an invalid date (`NaN`). -/
def isoToMs (s : String) : Option Int :=
  match splitChar 'T' s.data with
  | [d, t] =>
    match splitChar '-' d, splitChar ':' t with
    | [ys, ms, ds], [hs, mins] =>
      match parseNat ys, parseNat ms, parseNat ds, parseNat hs, parseNat mins with
      | some y, some mo, some dd, some h, some mi =>
        some ((daysFromCivil y mo dd * 86400 + h * 3600 + mi * 60) * 1000)
      | _, _, _, _, _ => none
    | [ys, ms, ds], [hs, mins, secs] =>
      match parseNat ys, parseNat ms, parseNat ds, parseNat hs, parseNat mins,
          parseNat secs with
      | some y, some mo, some dd, some h, some mi, some se =>
        some ((daysFromCivil y mo dd * 86400 + h * 3600 + mi * 60 + se) * 1000)
      | _, _, _, _, _, _ => none
    | _, _ => none
  | _ => none

/-- A `sales` row, restricted to the columns the cash-reconciliation code
reads: `store_id`, `sale_date` and the cash payment amount. -/
structure SaleRecord where
  store_id : Nat
  sale_date : String
  cash_amount : ℚ
deriving DecidableEq, Repr

/-- A `cash_register` row.  `closing_cash`, `calculated_cash` and
`cash_difference` are `NULL` until the register is closed; `notes` is a
nullable text column. -/
structure CashRegisterEntry where
  register_id : Nat
  store_id : Nat
  user_id : Nat
  register_date : String
  opening_cash : ℚ
  closing_cash : Option ℚ
  calculated_cash : Option ℚ
  cash_difference : Option ℚ
  notes : Option String
deriving DecidableEq, Repr

/-- The slice of the relational store the cash routes touch, plus the
auto-increment counter for `register_id`. -/
structure CashDB where
  registers : List CashRegisterEntry
  sales : List SaleRecord
  next_register_id : Nat
deriving DecidableEq, Repr

/-- `WHERE store_id = ? AND register_date = ?` on `cash_register`. -/
def regMatches (store : Nat) (date : String) (r : CashRegisterEntry) : Bool :=
  r.store_id == store && r.register_date == date

/-- Outcome of `POST /api/cash/open`. -/
inductive OpenResult where
  /-- 201: row inserted, returning the new `register_id` and the opening balance. -/
  | opened (register_id : Nat) (opening_cash : ℚ)
  /-- 400 in `src/api/cash.js`: a row already exists; nothing is written. -/
  | alreadyOpened
  /-- 400 in `src/unnamed/part_003`: a row already exists; its opening
  balance is overwritten and the notes appended before the error returns. -/
  | alreadyOpenedUpdated
deriving DecidableEq, Repr

/-- Outcome of `POST /api/cash/close`. -/
inductive CloseResult where
  /-- 400: no `cash_register` row for (store, date). -/
  | notOpened
  /-- 400: the row's `closing_cash` is already non-`NULL`; nothing is written. -/
  | alreadyClosed
  /-- 200, carrying the response fields `opening_cash`, `closing_cash`,
  `total_cash_sales`, `calculated_cash` and `cash_difference`. -/
  | closed (opening_cash closing_cash total_cash_sales calculated_cash cash_difference : ℚ)
deriving DecidableEq, Repr

namespace CashJs

/-- `SELECT COALESCE(SUM(cash_amount), 0) FROM sales WHERE store_id = ? AND
sale_date = ?` (src/api/cash.js, close handler). -/
def cashSalesFor (sales : List SaleRecord) (store : Nat) (date : String) : ℚ :=
  ((sales.filter (fun s => s.store_id == store && s.sale_date == date)).map
    (fun s => s.cash_amount)).sum

/-- `POST /api/cash/open` of src/api/cash.js: reject with 400 when a row for
(store, date) exists, otherwise insert a fresh row with `NULL` closing
columns. -/
def openRegister (db : CashDB) (user store : Nat) (date : String) (opening : ℚ)
    (notes : Option String) : CashDB × OpenResult :=
  match db.registers.filter (regMatches store date) with
  | _ :: _ => (db, OpenResult.alreadyOpened)
  | [] =>
    ({ registers := db.registers ++
        [{ register_id := db.next_register_id, store_id := store, user_id := user,
           register_date := date, opening_cash := opening, closing_cash := none,
           calculated_cash := none, cash_difference := none, notes := notes }],
       sales := db.sales,
       next_register_id := db.next_register_id + 1 },
     OpenResult.opened db.next_register_id opening)

/-- `POST /api/cash/close` of src/api/cash.js: guard on a missing row and on
`closing_cash !== null` of the first matching row, then compute
`calculated_cash = opening_cash + total_cash_sales` and
`cash_difference = closing_cash - calculated_cash` and write them back with
the appended notes. -/
def closeRegister (db : CashDB) (store : Nat) (date : String) (closing : ℚ)
    (notes : Option String) : CashDB × CloseResult :=
  match db.registers.filter (regMatches store date) with
  | [] => (db, CloseResult.notOpened)
  | r :: _ =>
    match r.closing_cash with
    | some _ => (db, CloseResult.alreadyClosed)
    | none =>
      let total_cash_sales := cashSalesFor db.sales store date
      let calculated_cash := r.opening_cash + total_cash_sales
      let cash_difference := closing - calculated_cash
      ({ registers := db.registers.map (fun e =>
            if regMatches store date e then
              { e with closing_cash := some closing,
                       calculated_cash := some calculated_cash,
                       cash_difference := some cash_difference,
                       notes := some (concat_ws " | " e.notes notes) }
            else e),
         sales := db.sales,
         next_register_id := db.next_register_id },
       CloseResult.closed r.opening_cash closing total_cash_sales calculated_cash
         cash_difference)

end CashJs

namespace Part003

/-- `SELECT COALESCE(SUM(cash_amount), 0) FROM sales WHERE store_id IN
(1,2,3,4) AND sale_date = ?` (src/unnamed/part_003, close handler): the cash
sales of every store in the fixed set {1,2,3,4} for that date. -/
def sharedCashSalesFor (sales : List SaleRecord) (date : String) : ℚ :=
  ((sales.filter (fun s => ([1, 2, 3, 4] : List Nat).contains s.store_id
      && s.sale_date == date)).map (fun s => s.cash_amount)).sum

/-- `POST /api/cash/open` of src/unnamed/part_003: when a row for
(store, date) exists, overwrite its `opening_cash`, append the notes with
`CONCAT_WS(' | ', notes, ?)` and answer 400; otherwise insert a fresh row. -/
def openRegister (db : CashDB) (user store : Nat) (date : String) (opening : ℚ)
    (notes : Option String) : CashDB × OpenResult :=
  match db.registers.filter (regMatches store date) with
  | _ :: _ =>
    ({ registers := db.registers.map (fun e =>
          if regMatches store date e then
            { e with opening_cash := opening,
                     notes := some (concat_ws " | " e.notes notes) }
          else e),
       sales := db.sales,
       next_register_id := db.next_register_id },
     OpenResult.alreadyOpenedUpdated)
  | [] =>
    ({ registers := db.registers ++
        [{ register_id := db.next_register_id, store_id := store, user_id := user,
           register_date := date, opening_cash := opening, closing_cash := none,
           calculated_cash := none, cash_difference := none, notes := notes }],
       sales := db.sales,
       next_register_id := db.next_register_id + 1 },
     OpenResult.opened db.next_register_id opening)

/-- `POST /api/cash/close` of src/unnamed/part_003: identical to the
src/api/cash.js close except that the cash-sales sum ranges over the store
set {1,2,3,4} instead of the single store being closed. -/
def closeRegister (db : CashDB) (store : Nat) (date : String) (closing : ℚ)
    (notes : Option String) : CashDB × CloseResult :=
  match db.registers.filter (regMatches store date) with
  | [] => (db, CloseResult.notOpened)
  | r :: _ =>
    match r.closing_cash with
    | some _ => (db, CloseResult.alreadyClosed)
    | none =>
      let total_cash_sales := sharedCashSalesFor db.sales date
      let calculated_cash := r.opening_cash + total_cash_sales
      let cash_difference := closing - calculated_cash
      ({ registers := db.registers.map (fun e =>
            if regMatches store date e then
              { e with closing_cash := some closing,
                       calculated_cash := some calculated_cash,
                       cash_difference := some cash_difference,
                       notes := some (concat_ws " | " e.notes notes) }
            else e),
         sales := db.sales,
         next_register_id := db.next_register_id },
       CloseResult.closed r.opening_cash closing total_cash_sales calculated_cash
         cash_difference)

end Part003

namespace Part003

/-- A row of the `/api/cash/monthly` query: a `cash_register` row joined
with the store type and the left-joined cash-sales sum; the decimal columns
arrive as nullable strings and go through `parseFloat(x) || 0`. -/
structure MonthlyRegisterRow where
  store_type : Option String
  opening_cash : Option ℚ
  closing_cash : Option ℚ
  calculated_cash : Option ℚ
  cash_difference : Option ℚ
  total_cash_sales : Option ℚ
deriving DecidableEq, Repr

/-- `parseFloat(x) || 0`: a `NULL` (or unparsable) value counts as 0. -/
def numOr0 : Option ℚ → ℚ
  | none => 0
  | some q => q

/-- `register.store_type || 'unknown'`: `NULL` and the empty string are
falsy in JavaScript. -/
def storeTypeOf (r : MonthlyRegisterRow) : String :=
  match r.store_type with
  | none => "unknown"
  | some s => if s = "" then "unknown" else s

/-- One per-store-type bucket of `stats.store_breakdown`. -/
structure StoreBucket where
  total_opening_cash : ℚ
  total_closing_cash : ℚ
  total_calculated_cash : ℚ
  total_cash_difference : ℚ
  total_cash_sales : ℚ
  days_opened : Nat
  days_closed : Nat
deriving DecidableEq, Repr

/-- The zero-initialised bucket created on first sight of a store type. -/
def emptyBucket : StoreBucket :=
  { total_opening_cash := 0, total_closing_cash := 0, total_calculated_cash := 0,
    total_cash_difference := 0, total_cash_sales := 0, days_opened := 0,
    days_closed := 0 }

/-- The `stats` accumulator of `calculateMonthlyStats`.  The JavaScript
object keyed by store type is modelled as an association list in insertion
order. -/
structure MonthlyStats where
  total_opening_cash : ℚ
  total_closing_cash : ℚ
  total_calculated_cash : ℚ
  total_cash_difference : ℚ
  total_cash_sales : ℚ
  days_opened : Nat
  days_closed : Nat
  perfect_matches : Nat
  variances : Nat
  store_breakdown : List (String × StoreBucket)
  average_opening_cash : ℚ
  average_cash_difference : ℚ
deriving DecidableEq, Repr

/-- The initial `stats` literal of `calculateMonthlyStats` (the averages are
filled in after the loop). -/
def initialStats : MonthlyStats :=
  { total_opening_cash := 0, total_closing_cash := 0, total_calculated_cash := 0,
    total_cash_difference := 0, total_cash_sales := 0, days_opened := 0,
    days_closed := 0, perfect_matches := 0, variances := 0, store_breakdown := [],
    average_opening_cash := 0, average_cash_difference := 0 }

/-- Key-presence test on the breakdown object. -/
def hasBucket (l : List (String × StoreBucket)) (k : String) : Bool :=
  l.any (fun kv => kv.1 == k)

/-- `if (!stats.store_breakdown[storeType]) stats.store_breakdown[storeType]
= { ...zeros }`: add a zero bucket when the key is missing. -/
def ensureBucket (l : List (String × StoreBucket)) (k : String) :
    List (String × StoreBucket) :=
  if hasBucket l k then l else l ++ [(k, emptyBucket)]

/-- In-place update of the bucket stored under key `k`. -/
def updateBucket (l : List (String × StoreBucket)) (k : String)
    (f : StoreBucket → StoreBucket) : List (String × StoreBucket) :=
  match l with
  | [] => []
  | kv :: rest => if kv.1 == k then (kv.1, f kv.2) :: rest else kv :: updateBucket rest k f

/-- The per-row additions `calculateMonthlyStats` makes to the bucket of the
row's store type: the five amounts, `days_opened++`, and `days_closed++`
when `closing_cash !== null`. -/
def bucketAdd (r : MonthlyRegisterRow) (b : StoreBucket) : StoreBucket :=
  { total_opening_cash := b.total_opening_cash + numOr0 r.opening_cash,
    total_closing_cash := b.total_closing_cash + numOr0 r.closing_cash,
    total_calculated_cash := b.total_calculated_cash + numOr0 r.calculated_cash,
    total_cash_difference := b.total_cash_difference + numOr0 r.cash_difference,
    total_cash_sales := b.total_cash_sales + numOr0 r.total_cash_sales,
    days_opened := b.days_opened + 1,
    days_closed := b.days_closed + (if r.closing_cash.isSome then 1 else 0) }

/-- The body of the `registers.forEach` loop of `calculateMonthlyStats`:
accumulate the overall totals and counters and the per-store-type bucket;
`perfect_matches` and `variances` are touched only when `closing_cash` is
non-`NULL`, splitting on `cashDifference === 0`. -/
def statsStep (stats : MonthlyStats) (r : MonthlyRegisterRow) : MonthlyStats :=
  let storeType := storeTypeOf r
  { total_opening_cash := stats.total_opening_cash + numOr0 r.opening_cash,
    total_closing_cash := stats.total_closing_cash + numOr0 r.closing_cash,
    total_calculated_cash := stats.total_calculated_cash + numOr0 r.calculated_cash,
    total_cash_difference := stats.total_cash_difference + numOr0 r.cash_difference,
    total_cash_sales := stats.total_cash_sales + numOr0 r.total_cash_sales,
    days_opened := stats.days_opened + 1,
    days_closed := stats.days_closed + (if r.closing_cash.isSome then 1 else 0),
    perfect_matches := stats.perfect_matches +
      (if r.closing_cash.isSome ∧ numOr0 r.cash_difference = 0 then 1 else 0),
    variances := stats.variances +
      (if r.closing_cash.isSome ∧ numOr0 r.cash_difference ≠ 0 then 1 else 0),
    store_breakdown := updateBucket (ensureBucket stats.store_breakdown storeType)
      storeType (bucketAdd r),
    average_opening_cash := stats.average_opening_cash,
    average_cash_difference := stats.average_cash_difference }

/-- `calculateMonthlyStats` of src/unnamed/part_003: fold the query rows
into the accumulator, then fill in the divide-by-zero-guarded averages. -/
def calculateMonthlyStats (registers : List MonthlyRegisterRow) : MonthlyStats :=
  let s := registers.foldl statsStep initialStats
  { s with
    average_opening_cash :=
      if 0 < s.days_opened then s.total_opening_cash / (s.days_opened : ℚ) else 0,
    average_cash_difference :=
      if 0 < s.days_closed then s.total_cash_difference / (s.days_closed : ℚ) else 0 }

end Part003

/-- A `staff_attendance` row.  `attendance_date` is the `DATE` column the
duplicate-clock-in check filters on; the `INSERT` of the clock-in handlers
leaves it to the table default, which is the calendar date of the login
timestamp being recorded. -/
structure AttendanceRecord where
  attendance_id : Nat
  user_id : Nat
  store_id : Nat
  attendance_date : String
  login_time : String
  login_latitude : ℚ
  login_longitude : ℚ
  logout_time : Option String
  logout_latitude : Option ℚ
  logout_longitude : Option ℚ
  work_duration_minutes : Option Int
deriving DecidableEq, Repr

/-- The `staff_attendance` table plus the auto-increment counter. -/
structure AttState where
  records : List AttendanceRecord
  next_id : Nat
deriving DecidableEq, Repr

/-- The empty table. -/
def emptyAttState : AttState :=
  { records := [], next_id := 0 }

/-- `WHERE user_id = ? AND attendance_date = ? AND logout_time IS NULL`:
the open-session filter shared by clock-in and clock-out. -/
def openFor (user : Nat) (date : String) (r : AttendanceRecord) : Bool :=
  r.user_id == user && r.attendance_date == date && r.logout_time.isNone

/-- Outcome of `POST /api/attendance/clock-in`. -/
inductive ClockInResult where
  /-- 201 with the inserted row's id. -/
  | clockedIn (attendance_id : Nat)
  /-- 400: an open record for (user, date) already exists; nothing is written. -/
  | alreadyClockedIn
deriving DecidableEq, Repr

/-- Outcome of `POST /api/attendance/clock-out`, carrying the
`work_duration_minutes` response field (`none` models `NaN`/`null`). -/
inductive ClockOutResult where
  | clockedOut (work_duration_minutes : Option Int)
  /-- 400: no open record for (user, date). -/
  | noOpenSession
deriving DecidableEq, Repr

namespace AttendanceJs

/-- `POST /api/attendance/clock-in` of src/api/attendance.js: the date is
`login_time.split('T')[0]`; reject with 400 when an open record for
(user, date) exists, otherwise insert a row with the supplied login
timestamp and coordinates and `NULL` logout columns. -/
def clockIn (st : AttState) (user store : Nat) (lat lng : ℚ)
    (login_time : String) : AttState × ClockInResult :=
  let today := datePart login_time
  if 0 < (st.records.filter (openFor user today)).length then
    (st, ClockInResult.alreadyClockedIn)
  else
    ({ records := st.records ++
        [{ attendance_id := st.next_id, user_id := user, store_id := store,
           attendance_date := today, login_time := login_time,
           login_latitude := lat, login_longitude := lng, logout_time := none,
           logout_latitude := none, logout_longitude := none,
           work_duration_minutes := none }],
       next_id := st.next_id + 1 },
     ClockInResult.clockedIn st.next_id)

/-- `POST /api/attendance/clock-out` of src/api/attendance.js.  The handler
computes `Math.round((logoutTime - loginTime) / (1000 * 60))` where
`logoutTime` is the raw request string (so the subtraction coerces it with
`ToNumber` and yields `NaN` for every ISO datetime) and `loginTime` is
`new Date(record.login_time)`.  The `UPDATE` sets only `logout_time`,
`logout_latitude` and `logout_longitude`; the `work_duration_minutes = ?`
assignment present in the source comment is absent from the statement, so
the duration is returned but never persisted. -/
def clockOut (st : AttState) (user : Nat) (lat lng : ℚ) (date : String)
    (logout_time : String) : AttState × ClockOutResult :=
  match st.records.find? (openFor user date) with
  | none => (st, ClockOutResult.noOpenSession)
  | some rec =>
    let workDurationMinutes : Option Int :=
      match jsStringToNumber logout_time, isoToMs rec.login_time with
      | some lo, some li => some (jsRound ((lo - (li : ℚ)) / (1000 * 60)))
      | _, _ => none
    ({ records := st.records.map (fun r =>
          if r.attendance_id == rec.attendance_id then
            { r with logout_time := some logout_time,
                     logout_latitude := some lat,
                     logout_longitude := some lng }
          else r),
       next_id := st.next_id },
     ClockOutResult.clockedOut workDurationMinutes)

end AttendanceJs

namespace Part001

/-- `POST /api/attendance/clock-in` of src/unnamed/part_001: the same
check-then-insert logic with the server clock's ISO timestamp in place of a
caller-supplied one (`login_time` is filled by the column default,
i.e. the same server timestamp). -/
def clockIn (st : AttState) (user store : Nat) (lat lng : ℚ)
    (now : String) : AttState × ClockInResult :=
  AttendanceJs.clockIn st user store lat lng now

/-- `POST /api/attendance/clock-out` of src/unnamed/part_001: both ends of
the subtraction are `Date` objects (`new Date()` and
`new Date(record.login_time)`), so the rounded minute duration is computed,
and the `UPDATE` persists `work_duration_minutes` together with the logout
columns. -/
def clockOut (st : AttState) (user : Nat) (lat lng : ℚ)
    (now : String) : AttState × ClockOutResult :=
  let today := datePart now
  match st.records.find? (openFor user today) with
  | none => (st, ClockOutResult.noOpenSession)
  | some rec =>
    let workDurationMinutes : Option Int :=
      match isoToMs now, isoToMs rec.login_time with
      | some lo, some li => some (jsRound (((lo : ℚ) - (li : ℚ)) / (1000 * 60)))
      | _, _ => none
    ({ records := st.records.map (fun r =>
          if r.attendance_id == rec.attendance_id then
            { r with logout_time := some now,
                     logout_latitude := some lat,
                     logout_longitude := some lng,
                     work_duration_minutes := workDurationMinutes }
          else r),
       next_id := st.next_id },
     ClockOutResult.clockedOut workDurationMinutes)

end Part001

/-- An abstract attendance API call against src/api/attendance.js. -/
inductive AttOp where
  | clockInOp (user store : Nat) (lat lng : ℚ) (login_time : String)
  | clockOutOp (user : Nat) (lat lng : ℚ) (date : String) (logout_time : String)
deriving DecidableEq, Repr

/-- State transition of one attendance API call. -/
def applyAttOp (st : AttState) : AttOp → AttState
  | AttOp.clockInOp u s la ln t => (AttendanceJs.clockIn st u s la ln t).1
  | AttOp.clockOutOp u la ln d t => (AttendanceJs.clockOut st u la ln d t).1

/-- Run a sequence of attendance API calls from the empty table. -/
def runAttOps (ops : List AttOp) : AttState :=
  ops.foldl applyAttOp emptyAttState

/-- Number of open (logout-`NULL`) records for a (user, date) pair. -/
def openCount (st : AttState) (user : Nat) (date : String) : Nat :=
  st.records.countP (openFor user date)

/-- Modelled from the spec: the `ClockOut` contract "computes
`durationMinutes = round((logoutTime − loginTime) in minutes)`" from the
caller-supplied timestamps, used to compare the intended duration with what
the code computes. -/
def specWorkDurationMinutes (login_time logout_time : String) : Option Int :=
  match isoToMs logout_time, isoToMs login_time with
  | some lo, some li => some (jsRound (((lo : ℚ) - (li : ℚ)) / (1000 * 60)))
  | _, _ => none

namespace SummaryMatrix

/-- Modelled from the spec: the repository's attendance summary-matrix
handler is not among the source files, so `BuildSummaryMatrix` and its
inputs are taken from spec section 4.2.  A user eligible for the matrix. -/
structure MatrixUser where
  user_id : Nat
  role : String
deriving DecidableEq, Repr

/-- Modelled from the spec: the attendance facts `BuildSummaryMatrix` reads
for one (user, date): whether a logout was recorded and the stored work
duration in minutes. -/
structure MatrixAttRow where
  user_id : Nat
  date : Int
  logout_set : Bool
  duration_minutes : Option Int
deriving DecidableEq, Repr

/-- Modelled from the spec: the per-day classification
{absent, clocked_in_only, very_short, short_hours, present}. -/
inductive DayClass where
  | absent
  | clockedInOnly
  | veryShort
  | shortHours
  | present
deriving DecidableEq, Repr

/-- Modelled from the spec: classify one (user, date) cell.  No record →
absent; record without logout → clocked_in_only; otherwise by hours worked:
≥ 9 present, [8, 9) short_hours, (0, 8) very_short (0 hours with a logout
would fall back to clocked_in_only, the combination the spec calls
unreachable). -/
def classifyDay (rec : Option MatrixAttRow) : DayClass :=
  match rec with
  | none => DayClass.absent
  | some r =>
    if r.logout_set = false then DayClass.clockedInOnly
    else
      let hours : ℚ := ((r.duration_minutes.getD 0 : Int) : ℚ) / 60
      if 9 ≤ hours then DayClass.present
      else if 8 ≤ hours then DayClass.shortHours
      else if 0 < hours then DayClass.veryShort
      else DayClass.clockedInOnly

/-- Modelled from the spec: the inclusive list of calendar dates (as day
indices) from `startDate` to `endDate`. -/
def dateRange (startDate endDate : Int) : List Int :=
  (List.range (endDate + 1 - startDate).toNat).map (fun (i : Nat) => startDate + (i : Int))

/-- Modelled from the spec: eligible users have role staff or manager. -/
def eligibleUsers (users : List MatrixUser) : List MatrixUser :=
  users.filter (fun u => u.role == "staff" || u.role == "manager")

/-- Modelled from the spec: the per-user summary fields the claim
constrains. -/
structure UserSummary where
  total_days : Nat
  present_days : Nat
  absent_days : Nat
deriving DecidableEq, Repr

/-- Modelled from the spec: one user's row of the matrix. -/
structure MatrixRow where
  user : MatrixUser
  cells : List DayClass
  summary : UserSummary
deriving DecidableEq, Repr

/-- Modelled from the spec: the full matrix returned to the caller. -/
structure Matrix where
  columns : List Int
  rows : List MatrixRow
deriving DecidableEq, Repr

/-- Modelled from the spec: `BuildSummaryMatrix` materialises the full
date × user grid: for every eligible user and every date of the inclusive
range, look up that user's attendance row for the date (if any) and
classify it; `present_days` counts non-absent cells and
`absent_days = total_days − present_days`. -/
def buildSummaryMatrix (users : List MatrixUser) (recs : List MatrixAttRow)
    (startDate endDate : Int) : Matrix :=
  let dates := dateRange startDate endDate
  { columns := dates,
    rows := (eligibleUsers users).map (fun u =>
      let cells := dates.map (fun d =>
        classifyDay (recs.find? (fun r => r.user_id == u.user_id && r.date == d)))
      let present_days := cells.countP (fun c => !(c == DayClass.absent))
      { user := u, cells := cells,
        summary := { total_days := dates.length, present_days := present_days,
                     absent_days := dates.length - present_days } }) }

end SummaryMatrix

/-- A register row opened at 500.00 on 2024-05-01 for store 1, not yet
closed: the spec's perfect-match scenario. -/
def exampleOpenRegister : CashRegisterEntry :=
  { register_id := 1, store_id := 1, user_id := 1, register_date := "2024-05-01",
    opening_cash := 500, closing_cash := none, calculated_cash := none,
    cash_difference := none, notes := none }

/-- The spec's perfect-match scenario: opening 500.00 and two cash sales of
120.50 and 79.50 at store 1 on 2024-05-01. -/
def examplePerfectDB : CashDB :=
  { registers := [exampleOpenRegister],
    sales := [{ store_id := 1, sale_date := "2024-05-01", cash_amount := 120.50 },
              { store_id := 1, sale_date := "2024-05-01", cash_amount := 79.50 }],
    next_register_id := 2 }

/-- A database whose only sale on 2024-05-01 belongs to store 2, while the
open register belongs to store 1. -/
def exampleOtherStoreDB : CashDB :=
  { registers := [exampleOpenRegister],
    sales := [{ store_id := 2, sale_date := "2024-05-01", cash_amount := 50 }],
    next_register_id := 2 }

/-- A register row already opened at 100 with notes "first". -/
def exampleReopenRegister : CashRegisterEntry :=
  { register_id := 1, store_id := 1, user_id := 1, register_date := "2024-05-01",
    opening_cash := 100, closing_cash := none, calculated_cash := none,
    cash_difference := none, notes := some "first" }

/-- A database in which store 1 already opened its register on 2024-05-01,
used to exercise a second `Open` call. -/
def exampleReopenDB : CashDB :=
  { registers := [exampleReopenRegister], sales := [], next_register_id := 2 }

/-- A register row already closed on 2024-05-01 for store 1. -/
def exampleClosedRegister : CashRegisterEntry :=
  { register_id := 1, store_id := 1, user_id := 1, register_date := "2024-05-01",
    opening_cash := 500, closing_cash := some 700, calculated_cash := some 700,
    cash_difference := some 0, notes := none }

/-- A database holding only that closed register row. -/
def exampleClosedDB : CashDB :=
  { registers := [exampleClosedRegister], sales := [], next_register_id := 2 }

/-- Supporting identity for claim C1: for a register opened for
(store, date) with opening balance o and closing balance c, `Close` returns
and persists `calculated_cash = o + cashSalesSum` and
`cash_difference = c - calculated_cash`.  This is proved over the
exact-rational idealisation of the monetary values; the runtime performs
the same two operations in binary64, which is lossy in general (claim C1's
failing-input theorem below), though the spec scenario (opening 500.00,
cash sales 120.50 and 79.50, closing 700.00) uses binary-exact values and
yields a difference of exactly 0 in both semantics (see the witness). -/
theorem close_computes_and_persists_reconciliation
    (db : CashDB) (store : Nat) (date : String) (closing : ℚ) (notes : Option String)
    (r : CashRegisterEntry) (rest : List CashRegisterEntry)
    (hfind : db.registers.filter (regMatches store date) = r :: rest)
    (hopen : r.closing_cash = none) :
    (CashJs.closeRegister db store date closing notes).2 =
      CloseResult.closed r.opening_cash closing (CashJs.cashSalesFor db.sales store date)
        (r.opening_cash + CashJs.cashSalesFor db.sales store date)
        (closing - (r.opening_cash + CashJs.cashSalesFor db.sales store date))
    ∧ ∀ e, e ∈ (CashJs.closeRegister db store date closing notes).1.registers →
        regMatches store date e = true →
        e.closing_cash = some closing
        ∧ e.calculated_cash = some (r.opening_cash + CashJs.cashSalesFor db.sales store date)
        ∧ e.cash_difference = some (closing -
            (r.opening_cash + CashJs.cashSalesFor db.sales store date)) := by
  constructor
  · simp [CashJs.closeRegister, hfind, hopen]
  · intro e he hm
    simp only [CashJs.closeRegister, hfind, hopen] at he
    obtain ⟨x, hx, rfl⟩ := List.mem_map.mp he
    by_cases hxm : regMatches store date x
    · simp [hxm]
    · rw [if_neg (by simp [hxm])] at hm ⊢
      exact absurd hm (by simp [hxm])

theorem close_computes_and_persists_reconciliation_witness :
    (CashJs.closeRegister examplePerfectDB 1 "2024-05-01" 700 none).2 =
      CloseResult.closed exampleOpenRegister.opening_cash 700
        (CashJs.cashSalesFor examplePerfectDB.sales 1 "2024-05-01")
        (exampleOpenRegister.opening_cash +
          CashJs.cashSalesFor examplePerfectDB.sales 1 "2024-05-01")
        (700 - (exampleOpenRegister.opening_cash +
          CashJs.cashSalesFor examplePerfectDB.sales 1 "2024-05-01"))
    ∧ 700 - (exampleOpenRegister.opening_cash +
        CashJs.cashSalesFor examplePerfectDB.sales 1 "2024-05-01") = 0 :=
  ⟨(close_computes_and_persists_reconciliation examplePerfectDB 1 "2024-05-01" 700 none
      exampleOpenRegister [] (by rfl) (by rfl)).1,
   by norm_num [exampleOpenRegister, examplePerfectDB, CashJs.cashSalesFor, regMatches]⟩

/-- Rewriting rule for `twoZpow` at a negative exponent. -/
theorem twoZpow_neg_eq (k : ℤ) (n : ℕ) (hk : k = -(n : ℤ)) (hn : 0 < n) :
    twoZpow k = 1 / ((2 ^ n : ℕ) : ℚ) := by
  subst hk
  rw [twoZpow, if_neg (by omega), neg_neg, Int.toNat_natCast]

/-- Claim C1, failing input: with opening 0.10, one cash sale of 0.20 and
closing 0.30 — each held as the binary64 value `parseFloat` produces — the
close handler arithmetic computes `cash_difference = -(2 ^ (-54))` instead
of 0, although exact decimal arithmetic on the same inputs gives exactly 0:
the system's one piece of real arithmetic is floating-point-lossy, against
the spec's requirement of exact decimal arithmetic. -/
theorem close_double_arithmetic_lossy :
    (closeDoubleArithmetic (roundDouble (1 / 10)) (roundDouble (2 / 10))
        (roundDouble (3 / 10))).2 = -(1 / 2 ^ 54)
    ∧ (3 : ℚ) / 10 - (1 / 10 + 2 / 10) = 0
    ∧ (-(1 / (2 ^ 54 : ℚ)) = 0 → False) := by
  refine ⟨?_, by norm_num, by norm_num⟩
  have h1 : roundDouble (1 / 10) = 3602879701896397 / 2 ^ 55 := by
    have hq : ((1 : ℚ) / 10) ≠ 0 := by norm_num
    simp only [roundDouble, if_neg hq]
    rw [show ((1 : ℚ) / 10).num = 1 from by norm_num,
      show ((1 : ℚ) / 10).den = 10 from by norm_num]
    rw [show (1 : ℤ).natAbs = 1 from rfl,
      show roundPos 1 10 = (7205759403792794, -56) from by decide,
      show (1 : ℤ).sign = 1 from by decide]
    rw [show ((7205759403792794, (-56 : ℤ)).2) = ((-56 : ℤ)) from rfl]
    rw [twoZpow_neg_eq (-56) 56 (by decide) (by decide)]
    norm_num
  have h2 : roundDouble (2 / 10) = 3602879701896397 / 2 ^ 54 := by
    have hq : ((2 : ℚ) / 10) ≠ 0 := by norm_num
    simp only [roundDouble, if_neg hq]
    rw [show ((2 : ℚ) / 10).num = 1 from by norm_num,
      show ((2 : ℚ) / 10).den = 5 from by norm_num]
    rw [show (1 : ℤ).natAbs = 1 from rfl,
      show roundPos 1 5 = (7205759403792794, -55) from by decide,
      show (1 : ℤ).sign = 1 from by decide]
    rw [show ((7205759403792794, (-55 : ℤ)).2) = ((-55 : ℤ)) from rfl]
    rw [twoZpow_neg_eq (-55) 55 (by decide) (by decide)]
    norm_num
  have h3 : roundDouble (3 / 10) = 5404319552844595 / 2 ^ 54 := by
    have hq : ((3 : ℚ) / 10) ≠ 0 := by norm_num
    simp only [roundDouble, if_neg hq]
    rw [show ((3 : ℚ) / 10).num = 3 from by norm_num,
      show ((3 : ℚ) / 10).den = 10 from by norm_num]
    rw [show (3 : ℤ).natAbs = 3 from rfl,
      show roundPos 3 10 = (5404319552844595, -54) from by decide,
      show (3 : ℤ).sign = 1 from by decide]
    rw [show ((5404319552844595, (-54 : ℤ)).2) = ((-54 : ℤ)) from rfl]
    rw [twoZpow_neg_eq (-54) 54 (by decide) (by decide)]
    norm_num
  have h4 : roundDouble ((3602879701896397 : ℚ) / 2 ^ 55 + 3602879701896397 / 2 ^ 54)
      = 1351079888211149 / 2 ^ 52 := by
    rw [show (3602879701896397 : ℚ) / 2 ^ 55 + 3602879701896397 / 2 ^ 54
        = 10808639105689191 / 36028797018963968 from by norm_num]
    have hq : ((10808639105689191 : ℚ) / 36028797018963968) ≠ 0 := by norm_num
    simp only [roundDouble, if_neg hq]
    rw [show ((10808639105689191 : ℚ) / 36028797018963968).num = 10808639105689191 from
        by norm_num,
      show ((10808639105689191 : ℚ) / 36028797018963968).den = 36028797018963968 from
        by norm_num]
    rw [show (10808639105689191 : ℤ).natAbs = 10808639105689191 from rfl,
      show roundPos 10808639105689191 36028797018963968 = (5404319552844596, -54) from
        by decide,
      show (10808639105689191 : ℤ).sign = 1 from by decide]
    rw [show ((5404319552844596, (-54 : ℤ)).2) = ((-54 : ℤ)) from rfl]
    rw [twoZpow_neg_eq (-54) 54 (by decide) (by decide)]
    norm_num
  have h5 : roundDouble ((5404319552844595 : ℚ) / 2 ^ 54 - 1351079888211149 / 2 ^ 52)
      = -(1 / 2 ^ 54) := by
    rw [show (5404319552844595 : ℚ) / 2 ^ 54 - 1351079888211149 / 2 ^ 52
        = -1 / 18014398509481984 from by norm_num]
    have hq : ((-1 : ℚ) / 18014398509481984) ≠ 0 := by norm_num
    simp only [roundDouble, if_neg hq]
    rw [show ((-1 : ℚ) / 18014398509481984).num = -1 from by norm_num,
      show ((-1 : ℚ) / 18014398509481984).den = 18014398509481984 from by norm_num]
    rw [show (-1 : ℤ).natAbs = 1 from rfl,
      show roundPos 1 18014398509481984 = (4503599627370496, -106) from by decide,
      show (-1 : ℤ).sign = -1 from by decide]
    rw [show ((4503599627370496, (-106 : ℤ)).2) = ((-106 : ℤ)) from rfl]
    rw [twoZpow_neg_eq (-106) 106 (by decide) (by decide)]
    norm_num
  simp only [closeDoubleArithmetic, h1, h2, h3, h4, h5]

/-- Claim C2: `Close` fails with NotOpened when no `cash_register` row
exists for (store, date) and with AlreadyClosed when the row is already
closed, and in both failure cases the database is returned unchanged; this
holds for both generations of the close handler. -/
theorem close_fails_without_mutation
    (db : CashDB) (store : Nat) (date : String) (closing : ℚ) (notes : Option String) :
    (db.registers.filter (regMatches store date) = [] →
      CashJs.closeRegister db store date closing notes = (db, CloseResult.notOpened)
      ∧ Part003.closeRegister db store date closing notes = (db, CloseResult.notOpened))
    ∧ (∀ r rest c, db.registers.filter (regMatches store date) = r :: rest →
        r.closing_cash = some c →
        CashJs.closeRegister db store date closing notes = (db, CloseResult.alreadyClosed)
        ∧ Part003.closeRegister db store date closing notes
            = (db, CloseResult.alreadyClosed)) := by
  constructor
  · intro h
    constructor
    · simp [CashJs.closeRegister, h]
    · simp [Part003.closeRegister, h]
  · intro r rest c hfind hclosed
    constructor
    · simp [CashJs.closeRegister, hfind, hclosed]
    · simp [Part003.closeRegister, hfind, hclosed]

theorem close_fails_without_mutation_witness :
    (CashJs.closeRegister exampleClosedDB 1 "2024-05-01" 650 none
        = (exampleClosedDB, CloseResult.alreadyClosed))
    ∧ (Part003.closeRegister exampleClosedDB 2 "2024-05-01" 650 none
        = (exampleClosedDB, CloseResult.notOpened)) :=
  ⟨((close_fails_without_mutation exampleClosedDB 1 "2024-05-01" 650 none).2
      exampleClosedRegister [] 700 (by rfl) (by rfl)).1,
   ((close_fails_without_mutation exampleClosedDB 2 "2024-05-01" 650 none).1
      (by rfl)).2⟩

/-- Claim C3, counterexample: closing store 1 via the part_003 handler on a
database whose only 2024-05-01 sale (cash 50) belongs to store 2 uses
`total_cash_sales = 50`, although the sum of store-1 sales is 0 — a sale of
another store did contribute, refuting the claim as stated. -/
theorem part003_close_uses_other_stores_sales :
    (Part003.closeRegister exampleOtherStoreDB 1 "2024-05-01" 550 none).2 =
      CloseResult.closed 500 550 50 550 0
    ∧ CashJs.cashSalesFor exampleOtherStoreDB.sales 1 "2024-05-01" = 0
    ∧ ((50 : ℚ) = 0 → False) :=
  ⟨by norm_num [Part003.closeRegister, Part003.sharedCashSalesFor, exampleOtherStoreDB,
      exampleOpenRegister, regMatches],
   by norm_num [CashJs.cashSalesFor, exampleOtherStoreDB, regMatches],
   by norm_num⟩

/-- Claim C3, amended: the cash.js `Close` uses exactly the (store, date)
scoped cash-sales sum — prepending a sale of any other store leaves it
unchanged — while the part_003 `Close` uses the sum over the fixed store
set {1,2,3,4} for that date. -/
theorem close_cash_sales_scope
    (db : CashDB) (store : Nat) (date : String) (closing : ℚ) (notes : Option String)
    (r : CashRegisterEntry) (rest : List CashRegisterEntry)
    (hfind : db.registers.filter (regMatches store date) = r :: rest)
    (hopen : r.closing_cash = none) :
    (CashJs.closeRegister db store date closing notes).2 =
      CloseResult.closed r.opening_cash closing (CashJs.cashSalesFor db.sales store date)
        (r.opening_cash + CashJs.cashSalesFor db.sales store date)
        (closing - (r.opening_cash + CashJs.cashSalesFor db.sales store date))
    ∧ (Part003.closeRegister db store date closing notes).2 =
      CloseResult.closed r.opening_cash closing (Part003.sharedCashSalesFor db.sales date)
        (r.opening_cash + Part003.sharedCashSalesFor db.sales date)
        (closing - (r.opening_cash + Part003.sharedCashSalesFor db.sales date))
    ∧ (∀ x : SaleRecord, x.store_id ≠ store →
        CashJs.cashSalesFor (x :: db.sales) store date
          = CashJs.cashSalesFor db.sales store date) := by
  refine ⟨by simp [CashJs.closeRegister, hfind, hopen],
    by simp [Part003.closeRegister, hfind, hopen], ?_⟩
  intro x hx
  have hb : (x.store_id == store) = false := beq_eq_false_iff_ne.mpr hx
  simp [CashJs.cashSalesFor, List.filter_cons, hb]

theorem close_cash_sales_scope_witness :
    (Part003.closeRegister exampleOtherStoreDB 1 "2024-05-01" 550 none).2 =
      CloseResult.closed exampleOpenRegister.opening_cash 550
        (Part003.sharedCashSalesFor exampleOtherStoreDB.sales "2024-05-01")
        (exampleOpenRegister.opening_cash +
          Part003.sharedCashSalesFor exampleOtherStoreDB.sales "2024-05-01")
        (550 - (exampleOpenRegister.opening_cash +
          Part003.sharedCashSalesFor exampleOtherStoreDB.sales "2024-05-01")) :=
  (close_cash_sales_scope exampleOtherStoreDB 1 "2024-05-01" 550 none
    exampleOpenRegister [] (by rfl) (by rfl)).2.1

/-- Claim C4, counterexample: a second `Open` through the cash.js handler
against an entry holding opening 100 and notes "first" returns the database
unchanged, so the second call's opening value 200 and its note are not
observable afterwards, refuting the claim as stated. -/
theorem cashjs_reopen_does_not_update :
    CashJs.openRegister exampleReopenDB 9 1 "2024-05-01" 200 (some "second")
      = (exampleReopenDB, OpenResult.alreadyOpened)
    ∧ exampleReopenDB.registers.map (fun e => e.opening_cash) = [100]
    ∧ exampleReopenDB.registers.map (fun e => e.notes) = [some "first"]
    ∧ ((100 : ℚ) = 200 → False) :=
  ⟨by rfl, by rfl, by rfl, by norm_num⟩

/-- Claim C4, amended: when a row for (store, date) already exists, the
part_003 `Open` signals the conflict, adds no second row, overwrites the
opening balance of every matching row and appends the notes with the
`' | '` separator (both observable afterwards), while the cash.js `Open`
also adds no second row but rejects without updating anything. -/
theorem open_idempotence_by_version
    (db : CashDB) (user store : Nat) (date : String) (opening : ℚ) (notes : Option String)
    (r : CashRegisterEntry) (rest : List CashRegisterEntry)
    (hfind : db.registers.filter (regMatches store date) = r :: rest) :
    (Part003.openRegister db user store date opening notes).2
      = OpenResult.alreadyOpenedUpdated
    ∧ (Part003.openRegister db user store date opening notes).1.registers.length
        = db.registers.length
    ∧ (∀ e, e ∈ (Part003.openRegister db user store date opening notes).1.registers →
        regMatches store date e = true → e.opening_cash = opening)
    ∧ (∃ e, e ∈ (Part003.openRegister db user store date opening notes).1.registers
        ∧ regMatches store date e = true ∧ e.opening_cash = opening
        ∧ e.notes = some (concat_ws " | " r.notes notes))
    ∧ CashJs.openRegister db user store date opening notes
        = (db, OpenResult.alreadyOpened) := by
  have hrmem : r ∈ db.registers ∧ regMatches store date r = true := by
    have h2 : r ∈ db.registers.filter (regMatches store date) := by
      rw [hfind]; exact List.mem_cons_self r rest
    exact List.mem_filter.mp h2
  refine ⟨by simp [Part003.openRegister, hfind],
    by simp [Part003.openRegister, hfind], ?_, ?_,
    by simp [CashJs.openRegister, hfind]⟩
  · intro e he hm
    simp only [Part003.openRegister, hfind] at he
    obtain ⟨x, hx, rfl⟩ := List.mem_map.mp he
    by_cases hxm : regMatches store date x
    · simp [hxm]
    · rw [if_neg (by simp [hxm])] at hm ⊢
      exact absurd hm (by simp [hxm])
  · refine ⟨{ r with opening_cash := opening, notes := some (concat_ws " | " r.notes notes) }, ?_, hrmem.2, rfl, rfl⟩
    simp only [Part003.openRegister, hfind]
    exact List.mem_map.mpr ⟨r, hrmem.1, by simp [hrmem.2]⟩

theorem open_idempotence_by_version_witness :
    (Part003.openRegister exampleReopenDB 9 1 "2024-05-01" 200 (some "second")).2
      = OpenResult.alreadyOpenedUpdated
    ∧ (∃ e, e ∈ (Part003.openRegister exampleReopenDB 9 1 "2024-05-01" 200
            (some "second")).1.registers
        ∧ regMatches 1 "2024-05-01" e = true ∧ e.opening_cash = 200
        ∧ e.notes = some (concat_ws " | " exampleReopenRegister.notes (some "second"))) := by
  have h := open_idempotence_by_version exampleReopenDB 9 1 "2024-05-01" 200 (some "second")
    exampleReopenRegister [] (by rfl)
  exact ⟨h.1, h.2.2.2.1⟩

theorem openCount_clockOut_le
    (st : AttState) (user : Nat) (lat lng : ℚ) (date logout_time : String)
    (u2 : Nat) (d2 : String) :
    openCount (AttendanceJs.clockOut st user lat lng date logout_time).1 u2 d2
      ≤ openCount st u2 d2 := by
  unfold AttendanceJs.clockOut
  cases hf : st.records.find? (openFor user date) with
  | none => simp [openCount]
  | some rec =>
    simp only [openCount]
    rw [List.countP_map]
    apply List.countP_mono_left
    intro a ha hpa
    by_cases hid : a.attendance_id == rec.attendance_id
    · simp [openFor, hid, Function.comp] at hpa
    · simpa [hid, Function.comp] using hpa

theorem openCount_clockIn_le
    (st : AttState) (user store : Nat) (lat lng : ℚ) (login_time : String)
    (u2 : Nat) (d2 : String) (hInv : openCount st u2 d2 ≤ 1) :
    openCount (AttendanceJs.clockIn st user store lat lng login_time).1 u2 d2 ≤ 1 := by
  unfold AttendanceJs.clockIn
  by_cases hg : 0 < (st.records.filter (openFor user (datePart login_time))).length
  · rw [if_pos hg]; exact hInv
  · rw [if_neg hg]
    simp only [openCount, List.countP_append]
    by_cases hu : user = u2 ∧ datePart login_time = d2
    · obtain ⟨h1, h2⟩ := hu
      subst h1; subst h2
      have hz : st.records.countP (openFor user (datePart login_time)) = 0 := by
        rw [List.countP_eq_length_filter]; omega
      rw [hz]
      simp [openFor]
    · have hnew : openFor u2 d2
          { attendance_id := st.next_id, user_id := user, store_id := store,
            attendance_date := datePart login_time, login_time := login_time,
            login_latitude := lat, login_longitude := lng, logout_time := none,
            logout_latitude := none, logout_longitude := none,
            work_duration_minutes := none } = false := by
        simp only [openFor, Option.isNone_none, Bool.and_true]
        rw [Bool.and_eq_false_iff]
        rcases Decidable.not_and_iff_or_not.mp hu with h | h
        · exact Or.inl (beq_eq_false_iff_ne.mpr h)
        · exact Or.inr (beq_eq_false_iff_ne.mpr h)
      simp only [List.countP_cons, List.countP_nil, hnew, if_false]
      simpa using hInv

theorem foldl_att_invariant :
    ∀ (ops : List AttOp) (st : AttState), (∀ u d, openCount st u d ≤ 1) →
      ∀ u d, openCount (ops.foldl applyAttOp st) u d ≤ 1 := by
  intro ops
  induction ops with
  | nil => intro st h; exact h
  | cons op rest ih =>
    intro st h u d
    apply ih
    intro u2 d2
    cases op with
    | clockInOp us ss la ln t =>
      exact openCount_clockIn_le st us ss la ln t u2 d2 (h u2 d2)
    | clockOutOp us la ln dd t =>
      exact le_trans (openCount_clockOut_le st us la ln dd t u2 d2) (h u2 d2)

/-- Claim C5: `ClockIn` fails with AlreadyClockedIn exactly when an open
(logout-NULL) record exists for (user, date-of-timestamp), otherwise
appends a record with the supplied login timestamp and coordinates and
NULL logout, and any sequence of clock-in/clock-out calls from the empty
table keeps at most one open record per (user, date). -/
theorem clock_in_unique_open_session
    (st : AttState) (user store : Nat) (lat lng : ℚ) (login_time : String) :
    (0 < openCount st user (datePart login_time) →
      AttendanceJs.clockIn st user store lat lng login_time
        = (st, ClockInResult.alreadyClockedIn))
    ∧ (openCount st user (datePart login_time) = 0 →
      (AttendanceJs.clockIn st user store lat lng login_time).2
          = ClockInResult.clockedIn st.next_id
      ∧ (AttendanceJs.clockIn st user store lat lng login_time).1.records
          = st.records ++
            [{ attendance_id := st.next_id, user_id := user, store_id := store,
               attendance_date := datePart login_time, login_time := login_time,
               login_latitude := lat, login_longitude := lng, logout_time := none,
               logout_latitude := none, logout_longitude := none,
               work_duration_minutes := none }])
    ∧ (∀ ops u2 d2, openCount (runAttOps ops) u2 d2 ≤ 1) := by
  refine ⟨?_, ?_, ?_⟩
  · intro hpos
    have hg : 0 < (st.records.filter (openFor user (datePart login_time))).length := by
      rw [openCount, List.countP_eq_length_filter] at hpos; exact hpos
    simp [AttendanceJs.clockIn, if_pos hg]
  · intro hzero
    have hg : ¬ 0 < (st.records.filter (openFor user (datePart login_time))).length := by
      rw [openCount, List.countP_eq_length_filter] at hzero; omega
    constructor
    · simp [AttendanceJs.clockIn, if_neg hg]
    · simp [AttendanceJs.clockIn, if_neg hg]
  · intro ops u2 d2
    exact foldl_att_invariant ops emptyAttState
      (by intro u d; simp [openCount, emptyAttState]) u2 d2

theorem clock_in_unique_open_session_witness :
    (AttendanceJs.clockIn emptyAttState 7 1 0 0 "2024-05-01T09:00:00").2
      = ClockInResult.clockedIn 0
    ∧ openCount (runAttOps
        [AttOp.clockInOp 7 1 0 0 "2024-05-01T09:00:00",
         AttOp.clockInOp 7 1 0 0 "2024-05-01T10:00:00"]) 7 "2024-05-01" ≤ 1 := by
  have h := clock_in_unique_open_session emptyAttState 7 1 0 0 "2024-05-01T09:00:00"
  exact ⟨(h.2.1 (by rfl)).1,
    h.2.2 [AttOp.clockInOp 7 1 0 0 "2024-05-01T09:00:00",
      AttOp.clockInOp 7 1 0 0 "2024-05-01T10:00:00"] 7 "2024-05-01"⟩

/-- Claim C6, failing input: clocking in at 2024-05-01T09:00:00 and
clocking out with caller-supplied timestamp 2024-05-01T17:30:00 makes the
attendance.js handler answer `work_duration_minutes = NaN` (the subtraction
coerces the raw logout string with ToNumber), while the spec contract
`round((logoutTime - loginTime) in minutes)` on the same timestamps gives
510. -/
theorem clock_out_duration_nan_bug :
    (AttendanceJs.clockOut
        (AttendanceJs.clockIn emptyAttState 7 1 0 0 "2024-05-01T09:00:00").1
        7 0 0 "2024-05-01" "2024-05-01T17:30:00").2
      = ClockOutResult.clockedOut none
    ∧ specWorkDurationMinutes "2024-05-01T09:00:00" "2024-05-01T17:30:00" = some 510
    ∧ (ClockOutResult.clockedOut none = ClockOutResult.clockedOut (some 510) → False) := by
  refine ⟨by rfl, ?_, fun h => Option.noConfusion (ClockOutResult.clockedOut.inj h)⟩
  calc specWorkDurationMinutes "2024-05-01T09:00:00" "2024-05-01T17:30:00"
      = some (jsRound ((((1714584600000 : Int) : ℚ) - ((1714554000000 : Int) : ℚ)) /
          (1000 * 60))) := by rfl
    _ = some 510 := by norm_num [jsRound]

/-- Claim C7, failing input: after clock-in and clock-out through the
attendance.js handlers the stored record has its logout timestamp set but
`work_duration_minutes` still NULL (the UPDATE omits the column), whereas
the part_001 handler persists the 510-minute duration together with the
logout columns. -/
theorem clock_out_drops_duration_bug :
    ((AttendanceJs.clockOut
        (AttendanceJs.clockIn emptyAttState 7 1 0 0 "2024-05-01T09:00:00").1
        7 0 0 "2024-05-01" "2024-05-01T17:30:00").1.records.map
      (fun r => (r.logout_time, r.work_duration_minutes)))
      = [(some "2024-05-01T17:30:00", none)]
    ∧ ((Part001.clockOut
        (Part001.clockIn emptyAttState 7 1 0 0 "2024-05-01T09:00:00").1
        7 0 0 "2024-05-01T17:30:00").1.records.map
      (fun r => (r.logout_time, r.work_duration_minutes)))
      = [(some "2024-05-01T17:30:00", some 510)] := by
  constructor
  · rfl
  · calc ((Part001.clockOut
          (Part001.clockIn emptyAttState 7 1 0 0 "2024-05-01T09:00:00").1
          7 0 0 "2024-05-01T17:30:00").1.records.map
        (fun r => (r.logout_time, r.work_duration_minutes)))
        = [(some "2024-05-01T17:30:00",
            some (jsRound ((((1714584600000 : Int) : ℚ) - ((1714554000000 : Int) : ℚ)) /
              (1000 * 60))))] := by rfl
      _ = [(some "2024-05-01T17:30:00", some 510)] := by norm_num [jsRound]

theorem foldStats_days_opened (rows : List Part003.MonthlyRegisterRow) :
    ∀ init, (rows.foldl Part003.statsStep init).days_opened
      = init.days_opened + rows.length := by
  induction rows with
  | nil => intro init; simp
  | cons r rs ih =>
    intro init
    rw [List.foldl_cons, ih]
    simp only [Part003.statsStep, List.length_cons]
    omega

theorem foldStats_days_closed (rows : List Part003.MonthlyRegisterRow) :
    ∀ init, (rows.foldl Part003.statsStep init).days_closed
      = init.days_closed + rows.countP (fun r => r.closing_cash.isSome) := by
  induction rows with
  | nil => intro init; simp
  | cons r rs ih =>
    intro init
    rw [List.foldl_cons, ih, List.countP_cons]
    simp only [Part003.statsStep]
    by_cases h1 : r.closing_cash.isSome
    · simp [h1]; omega
    · simp [h1]

theorem foldStats_perfect (rows : List Part003.MonthlyRegisterRow) :
    ∀ init, (rows.foldl Part003.statsStep init).perfect_matches
      = init.perfect_matches + rows.countP
          (fun r => r.closing_cash.isSome && decide (Part003.numOr0 r.cash_difference = 0)) := by
  induction rows with
  | nil => intro init; simp
  | cons r rs ih =>
    intro init
    rw [List.foldl_cons, ih, List.countP_cons]
    simp only [Part003.statsStep]
    by_cases h1 : r.closing_cash.isSome
    · by_cases h2 : Part003.numOr0 r.cash_difference = 0
      · simp [h1, h2]; omega
      · simp [h1, h2]
    · simp [h1]

theorem foldStats_variances (rows : List Part003.MonthlyRegisterRow) :
    ∀ init, (rows.foldl Part003.statsStep init).variances
      = init.variances + rows.countP
          (fun r => r.closing_cash.isSome && !decide (Part003.numOr0 r.cash_difference = 0)) := by
  induction rows with
  | nil => intro init; simp
  | cons r rs ih =>
    intro init
    rw [List.foldl_cons, ih, List.countP_cons]
    simp only [Part003.statsStep]
    by_cases h1 : r.closing_cash.isSome
    · by_cases h2 : Part003.numOr0 r.cash_difference = 0
      · simp [h1, h2]
      · simp [h1, h2]; omega
    · simp [h1]

theorem foldStats_total_opening (rows : List Part003.MonthlyRegisterRow) :
    ∀ init, (rows.foldl Part003.statsStep init).total_opening_cash
      = init.total_opening_cash
        + (rows.map (fun r => Part003.numOr0 r.opening_cash)).sum := by
  induction rows with
  | nil => intro init; simp
  | cons r rs ih =>
    intro init
    rw [List.foldl_cons, ih]
    simp only [Part003.statsStep, List.map_cons, List.sum_cons]
    ring

theorem foldStats_total_difference (rows : List Part003.MonthlyRegisterRow) :
    ∀ init, (rows.foldl Part003.statsStep init).total_cash_difference
      = init.total_cash_difference
        + (rows.map (fun r => Part003.numOr0 r.cash_difference)).sum := by
  induction rows with
  | nil => intro init; simp
  | cons r rs ih =>
    intro init
    rw [List.foldl_cons, ih]
    simp only [Part003.statsStep, List.map_cons, List.sum_cons]
    ring

theorem countP_split_on (l : List Part003.MonthlyRegisterRow)
    (q : Part003.MonthlyRegisterRow → Prop) [DecidablePred q] :
    l.countP (fun r => r.closing_cash.isSome && decide (q r))
      + l.countP (fun r => r.closing_cash.isSome && !decide (q r))
      = l.countP (fun r => r.closing_cash.isSome) := by
  induction l with
  | nil => simp
  | cons r rs ih =>
    simp only [List.countP_cons]
    by_cases h1 : r.closing_cash.isSome
    · by_cases h2 : q r
      · simp [h1, h2]; omega
      · simp [h1, h2]; omega
    · simp [h1]; omega

/-- Claim C8: `calculateMonthlyStats` counts perfect matches
(difference = 0, exact equality) and variances (difference != 0) only over
rows with a non-NULL closing balance, so
`perfect_matches + variances = days_closed`; the average opening balance is
total opening / days opened and the average difference is
total difference / days closed, each 0 when its denominator is 0. -/
theorem monthly_stats_counts_and_averages (rows : List Part003.MonthlyRegisterRow) :
    (Part003.calculateMonthlyStats rows).days_opened = rows.length
    ∧ (Part003.calculateMonthlyStats rows).days_closed
        = rows.countP (fun r => r.closing_cash.isSome)
    ∧ (Part003.calculateMonthlyStats rows).perfect_matches
        = rows.countP (fun r =>
            r.closing_cash.isSome && decide (Part003.numOr0 r.cash_difference = 0))
    ∧ (Part003.calculateMonthlyStats rows).variances
        = rows.countP (fun r =>
            r.closing_cash.isSome && !decide (Part003.numOr0 r.cash_difference = 0))
    ∧ (Part003.calculateMonthlyStats rows).perfect_matches
        + (Part003.calculateMonthlyStats rows).variances
        = (Part003.calculateMonthlyStats rows).days_closed
    ∧ (Part003.calculateMonthlyStats rows).total_opening_cash
        = (rows.map (fun r => Part003.numOr0 r.opening_cash)).sum
    ∧ (Part003.calculateMonthlyStats rows).average_opening_cash
        = (if rows.length = 0 then 0
           else (rows.map (fun r => Part003.numOr0 r.opening_cash)).sum / (rows.length : ℚ))
    ∧ (Part003.calculateMonthlyStats rows).total_cash_difference
        = (rows.map (fun r => Part003.numOr0 r.cash_difference)).sum
    ∧ (Part003.calculateMonthlyStats rows).average_cash_difference
        = (if rows.countP (fun r => r.closing_cash.isSome) = 0 then 0
           else (rows.map (fun r => Part003.numOr0 r.cash_difference)).sum
             / (rows.countP (fun r => r.closing_cash.isSome) : ℚ)) := by
  have hdo := foldStats_days_opened rows Part003.initialStats
  have hdc := foldStats_days_closed rows Part003.initialStats
  have hpm := foldStats_perfect rows Part003.initialStats
  have hvr := foldStats_variances rows Part003.initialStats
  have hto := foldStats_total_opening rows Part003.initialStats
  have htd := foldStats_total_difference rows Part003.initialStats
  simp only [Part003.initialStats, zero_add] at hdo hdc hpm hvr hto htd
  refine ⟨?_, ?_, ?_, ?_, ?_, ?_, ?_, ?_, ?_⟩
  · simpa [Part003.calculateMonthlyStats, Part003.initialStats] using hdo
  · simpa [Part003.calculateMonthlyStats, Part003.initialStats] using hdc
  · simpa [Part003.calculateMonthlyStats, Part003.initialStats] using hpm
  · simpa [Part003.calculateMonthlyStats, Part003.initialStats] using hvr
  · simp only [Part003.calculateMonthlyStats, Part003.initialStats]
    rw [hpm, hvr, hdc]
    exact countP_split_on rows (fun r => Part003.numOr0 r.cash_difference = 0)
  · simpa [Part003.calculateMonthlyStats, Part003.initialStats] using hto
  · simp only [Part003.calculateMonthlyStats, Part003.initialStats]
    rw [hdo, hto]
    by_cases h : rows.length = 0
    · simp [h]
    · rw [if_neg h, if_pos (Nat.pos_of_ne_zero h)]
  · simpa [Part003.calculateMonthlyStats, Part003.initialStats] using htd
  · simp only [Part003.calculateMonthlyStats, Part003.initialStats]
    rw [hdc, htd]
    by_cases h : rows.countP (fun r => r.closing_cash.isSome) = 0
    · simp [h]
    · rw [if_neg h, if_pos (Nat.pos_of_ne_zero h)]

theorem sum_map_ensureBucket {β : Type} [AddCommMonoid β] (F : Part003.StoreBucket → β)
    (h0 : F Part003.emptyBucket = 0) (l : List (String × Part003.StoreBucket))
    (k : String) :
    ((Part003.ensureBucket l k).map (fun kv => F kv.2)).sum
      = (l.map (fun kv => F kv.2)).sum := by
  unfold Part003.ensureBucket
  by_cases h : Part003.hasBucket l k
  · rw [if_pos h]
  · rw [if_neg h]
    simp [h0]

theorem hasBucket_ensureBucket (l : List (String × Part003.StoreBucket)) (k : String) :
    Part003.hasBucket (Part003.ensureBucket l k) k = true := by
  unfold Part003.ensureBucket
  by_cases h : Part003.hasBucket l k
  · rw [if_pos h]; exact h
  · rw [if_neg h]
    simp [Part003.hasBucket]

theorem sum_map_updateBucket {β : Type} [AddCommMonoid β] (F : Part003.StoreBucket → β)
    (f : Part003.StoreBucket → Part003.StoreBucket) (d : β)
    (hf : ∀ b, F (f b) = F b + d) :
    ∀ (l : List (String × Part003.StoreBucket)) (k : String),
      Part003.hasBucket l k = true →
      ((Part003.updateBucket l k f).map (fun kv => F kv.2)).sum
        = (l.map (fun kv => F kv.2)).sum + d := by
  intro l
  induction l with
  | nil => intro k hk; simp [Part003.hasBucket] at hk
  | cons kv rest ih =>
    intro k hk
    unfold Part003.updateBucket
    by_cases h : kv.1 == k
    · rw [if_pos h]
      simp only [List.map_cons, List.sum_cons, hf]
      rw [add_assoc, add_comm d, ← add_assoc]
    · rw [if_neg h]
      simp only [List.map_cons, List.sum_cons]
      have hk2 : Part003.hasBucket rest k = true := by
        simp only [Part003.hasBucket, List.any_cons, h, Bool.false_or] at hk
        exact hk
      rw [ih k hk2, add_assoc]

theorem foldStats_breakdown_eq {β : Type} [AddCommMonoid β]
    (Fb : Part003.StoreBucket → β) (Fs : Part003.MonthlyStats → β)
    (dl : Part003.MonthlyRegisterRow → β)
    (h0 : Fb Part003.emptyBucket = 0)
    (hb : ∀ r b, Fb (Part003.bucketAdd r b) = Fb b + dl r)
    (hs : ∀ s r, Fs (Part003.statsStep s r) = Fs s + dl r) :
    ∀ (rows : List Part003.MonthlyRegisterRow) (init : Part003.MonthlyStats),
      (init.store_breakdown.map (fun kv => Fb kv.2)).sum = Fs init →
      ((rows.foldl Part003.statsStep init).store_breakdown.map
        (fun kv => Fb kv.2)).sum = Fs (rows.foldl Part003.statsStep init) := by
  intro rows
  induction rows with
  | nil => intro init h; exact h
  | cons r rs ih =>
    intro init h
    rw [List.foldl_cons]
    apply ih
    have hbd : (Part003.statsStep init r).store_breakdown
        = Part003.updateBucket
            (Part003.ensureBucket init.store_breakdown (Part003.storeTypeOf r))
            (Part003.storeTypeOf r) (Part003.bucketAdd r) := by
      simp [Part003.statsStep]
    rw [hbd, sum_map_updateBucket Fb (Part003.bucketAdd r) (dl r) (fun b => hb r b)
      _ _ (hasBucket_ensureBucket _ _), sum_map_ensureBucket Fb h0, h, hs]

/-- Claim C10: the statistics record of `calculateMonthlyStats` is a
homomorphic breakdown: for each accumulated field (the five totals,
days_opened and days_closed) the sum of that field over all
`store_breakdown` buckets equals the top-level total. -/
theorem monthly_stats_breakdown_homomorphic (rows : List Part003.MonthlyRegisterRow) :
    (((Part003.calculateMonthlyStats rows).store_breakdown.map
        (fun kv => kv.2.total_opening_cash)).sum
      = (Part003.calculateMonthlyStats rows).total_opening_cash)
    ∧ (((Part003.calculateMonthlyStats rows).store_breakdown.map
        (fun kv => kv.2.total_closing_cash)).sum
      = (Part003.calculateMonthlyStats rows).total_closing_cash)
    ∧ (((Part003.calculateMonthlyStats rows).store_breakdown.map
        (fun kv => kv.2.total_calculated_cash)).sum
      = (Part003.calculateMonthlyStats rows).total_calculated_cash)
    ∧ (((Part003.calculateMonthlyStats rows).store_breakdown.map
        (fun kv => kv.2.total_cash_difference)).sum
      = (Part003.calculateMonthlyStats rows).total_cash_difference)
    ∧ (((Part003.calculateMonthlyStats rows).store_breakdown.map
        (fun kv => kv.2.total_cash_sales)).sum
      = (Part003.calculateMonthlyStats rows).total_cash_sales)
    ∧ (((Part003.calculateMonthlyStats rows).store_breakdown.map
        (fun kv => kv.2.days_opened)).sum
      = (Part003.calculateMonthlyStats rows).days_opened)
    ∧ (((Part003.calculateMonthlyStats rows).store_breakdown.map
        (fun kv => kv.2.days_closed)).sum
      = (Part003.calculateMonthlyStats rows).days_closed) := by
  refine ⟨?_, ?_, ?_, ?_, ?_, ?_, ?_⟩
  · simp only [Part003.calculateMonthlyStats]
    exact foldStats_breakdown_eq (fun b => b.total_opening_cash)
      (fun s => s.total_opening_cash) (fun r => Part003.numOr0 r.opening_cash)
      (by simp [Part003.emptyBucket]) (by intro r b; simp [Part003.bucketAdd])
      (by intro s r; simp [Part003.statsStep]) rows Part003.initialStats
      (by simp [Part003.initialStats])
  · simp only [Part003.calculateMonthlyStats]
    exact foldStats_breakdown_eq (fun b => b.total_closing_cash)
      (fun s => s.total_closing_cash) (fun r => Part003.numOr0 r.closing_cash)
      (by simp [Part003.emptyBucket]) (by intro r b; simp [Part003.bucketAdd])
      (by intro s r; simp [Part003.statsStep]) rows Part003.initialStats
      (by simp [Part003.initialStats])
  · simp only [Part003.calculateMonthlyStats]
    exact foldStats_breakdown_eq (fun b => b.total_calculated_cash)
      (fun s => s.total_calculated_cash) (fun r => Part003.numOr0 r.calculated_cash)
      (by simp [Part003.emptyBucket]) (by intro r b; simp [Part003.bucketAdd])
      (by intro s r; simp [Part003.statsStep]) rows Part003.initialStats
      (by simp [Part003.initialStats])
  · simp only [Part003.calculateMonthlyStats]
    exact foldStats_breakdown_eq (fun b => b.total_cash_difference)
      (fun s => s.total_cash_difference) (fun r => Part003.numOr0 r.cash_difference)
      (by simp [Part003.emptyBucket]) (by intro r b; simp [Part003.bucketAdd])
      (by intro s r; simp [Part003.statsStep]) rows Part003.initialStats
      (by simp [Part003.initialStats])
  · simp only [Part003.calculateMonthlyStats]
    exact foldStats_breakdown_eq (fun b => b.total_cash_sales)
      (fun s => s.total_cash_sales) (fun r => Part003.numOr0 r.total_cash_sales)
      (by simp [Part003.emptyBucket]) (by intro r b; simp [Part003.bucketAdd])
      (by intro s r; simp [Part003.statsStep]) rows Part003.initialStats
      (by simp [Part003.initialStats])
  · simp only [Part003.calculateMonthlyStats]
    exact foldStats_breakdown_eq (fun b => b.days_opened)
      (fun s => s.days_opened) (fun _ => 1)
      (by simp [Part003.emptyBucket]) (by intro r b; simp [Part003.bucketAdd])
      (by intro s r; simp [Part003.statsStep]) rows Part003.initialStats
      (by simp [Part003.initialStats])
  · simp only [Part003.calculateMonthlyStats]
    exact foldStats_breakdown_eq (fun b => b.days_closed)
      (fun s => s.days_closed) (fun r => if r.closing_cash.isSome then 1 else 0)
      (by simp [Part003.emptyBucket]) (by intro r b; simp [Part003.bucketAdd])
      (by intro s r; simp [Part003.statsStep]) rows Part003.initialStats
      (by simp [Part003.initialStats])

theorem sum_map_const_nat {α : Type} (l : List α) (c : Nat) :
    (l.map (fun _ => c)).sum = c * l.length := by
  induction l with
  | nil => simp
  | cons a l ih => simp only [List.map_cons, List.sum_cons, ih, List.length_cons]; ring

/-- Claim C9: `BuildSummaryMatrix` (modelled from the spec; the handler is
not among the source files) returns exactly daysInRange x eligibleUsers
cells — every user row has one cell per date of the inclusive range even
with no attendance rows at all — and every user row satisfies
`absent_days + present_days = total_days`. -/
theorem summary_matrix_grid_complete
    (users : List SummaryMatrix.MatrixUser) (recs : List SummaryMatrix.MatrixAttRow)
    (startDate endDate : Int) (hle : startDate ≤ endDate) :
    ((SummaryMatrix.buildSummaryMatrix users recs startDate endDate).rows.map
        (fun row => row.cells.length)).sum
      = (endDate - startDate + 1).toNat * (SummaryMatrix.eligibleUsers users).length
    ∧ (∀ row ∈ (SummaryMatrix.buildSummaryMatrix users recs startDate endDate).rows,
        row.cells.length = (endDate - startDate + 1).toNat
        ∧ row.summary.total_days = (endDate - startDate + 1).toNat
        ∧ row.summary.absent_days + row.summary.present_days
            = row.summary.total_days) := by
  have hlen : (SummaryMatrix.dateRange startDate endDate).length
      = (endDate - startDate + 1).toNat := by
    simp only [SummaryMatrix.dateRange, List.length_map, List.length_range]
    omega
  constructor
  · have hmap : ((SummaryMatrix.buildSummaryMatrix users recs startDate endDate).rows.map
        (fun row => row.cells.length))
        = (SummaryMatrix.eligibleUsers users).map
            (fun _ => (endDate - startDate + 1).toNat) := by
      simp only [SummaryMatrix.buildSummaryMatrix, List.map_map]
      apply List.map_congr_left
      intro u hu
      simp [hlen]
    rw [hmap, sum_map_const_nat]
  · intro row hrow
    simp only [SummaryMatrix.buildSummaryMatrix, List.mem_map] at hrow
    obtain ⟨u, hu, rfl⟩ := hrow
    refine ⟨by simp [hlen], by simp [hlen], ?_⟩
    have hcount : (((SummaryMatrix.dateRange startDate endDate).map (fun d =>
        SummaryMatrix.classifyDay (recs.find? (fun r =>
          r.user_id == u.user_id && r.date == d)))).countP
            (fun c => !(c == SummaryMatrix.DayClass.absent)))
        ≤ (SummaryMatrix.dateRange startDate endDate).length := by
      exact le_trans (List.countP_le_length _) (by simp)
    simp only
    omega

theorem summary_matrix_grid_complete_witness :
    ((SummaryMatrix.buildSummaryMatrix
        [{ user_id := 7, role := "staff" }, { user_id := 8, role := "admin" }]
        [] 0 2).rows.map (fun row => row.cells.length)).sum
      = ((2 : Int) - 0 + 1).toNat * (SummaryMatrix.eligibleUsers
          [{ user_id := 7, role := "staff" }, { user_id := 8, role := "admin" }]).length :=
  (summary_matrix_grid_complete
    [{ user_id := 7, role := "staff" }, { user_id := 8, role := "admin" }] [] 0 2
    (by norm_num)).1
